import Mathlib

/-!
Verification development for the terraform-provider-anthropic core:
the Admin-API HTTP client (request construction, error decoding,
pagination) and the CRUD-to-REST lifecycle adapters of the four
resource kinds (Workspace, APIKey, WorkspaceMember, Invite).

Every definition below is a shallow embedding of a function or struct
of the Go source under internal/client and internal/provider; doc
comments name the embedded symbol.
-/

namespace AnthropicProvider

/-- Embedding of terraform-plugin-framework `types.String`: a string
value that is null, unknown, or a concrete value.  `equal` is the
framework's `Equal` (structural), `valueString` returns `""` for
null/unknown, `isNull` tests nullness. -/
inductive TFString where
  | null : TFString
  | unknown : TFString
  | value : String → TFString
deriving DecidableEq, Repr

/-- Framework `types.String.ValueString`: the value, or `""` when
null or unknown. -/
def TFString.valueString : TFString → String
  | .value s => s
  | _ => ""

/-- Framework `types.String.IsNull`. -/
def TFString.isNull : TFString → Bool
  | .null => true
  | _ => false

/-- Framework `types.String.Equal`: structural equality of state and
value. -/
def TFString.equal (a b : TFString) : Bool := a = b

/-- Constant `DefaultBaseURL` of internal/client/client.go. -/
def DefaultBaseURL : String := "https://api.anthropic.com"

/-- Constant `DefaultAPIVersion` of internal/client/client.go. -/
def DefaultAPIVersion : String := "2023-06-01"

/-- The configuration part of `client.Client` (BaseURL, AdminKey,
APIVersion, and the HTTP client's fixed timeout in seconds). -/
structure Client where
  baseURL : String
  adminKey : String
  apiVersion : String
  timeoutSeconds : Nat
deriving DecidableEq, Repr

/-- `client.NewClient`: default base URL and API version, a 30-second
timeout, and the supplied admin key. -/
def NewClient (adminKey : String) : Client :=
  { baseURL := DefaultBaseURL
  , adminKey := adminKey
  , apiVersion := DefaultAPIVersion
  , timeoutSeconds := 30 }

/-- `Client.WithBaseURL`: overrides the base URL. -/
def Client.withBaseURL (c : Client) (baseURL : String) : Client :=
  { c with baseURL := baseURL }

/-- The nested `error` object of `client.APIError`. -/
structure APIErrorDetail where
  type : String
  message : String
deriving DecidableEq, Repr

/-- `client.APIError`: top-level `type`/`message` fields plus the
nested `error` object; any field a body omits decodes to `""`. -/
structure APIError where
  type : String
  message : String
  error : APIErrorDetail
deriving DecidableEq, Repr

/-- `APIError.String()`: prefer the nested error object when its
message is non-empty, else use the top-level fields; render as
"type: message". -/
def APIError.string (e : APIError) : String :=
  if e.error.message ≠ "" then e.error.type ++ ": " ++ e.error.message
  else e.type ++ ": " ++ e.message

/-- The status code and raw body of an HTTP response, as observed by
`Client.doRequest` after reading the body. -/
structure GoHTTPResponse where
  statusCode : Nat
  body : String
deriving DecidableEq, Repr

/-- The response-handling tail of `Client.doRequest` (client.go lines
92-106).  `decodeErr` stands for `json.Unmarshal(respBody, &apiErr)`
(`none` = unmarshal error), `decodeOK` for whether
`json.Unmarshal(respBody, result)` succeeds, and `wantResult` for
`result != nil`.  Status ≥ 400 takes the API-error branch; otherwise
a wanted, non-empty body is decoded into the result. -/
def doRequestRespond (decodeErr : String → Option APIError)
    (decodeOK : String → Bool) (wantResult : Bool)
    (resp : GoHTTPResponse) : Except String Unit :=
  if 400 ≤ resp.statusCode then
    match decodeErr resp.body with
    | none =>
        .error ("API error (status " ++ toString resp.statusCode ++ "): "
          ++ resp.body)
    | some apiErr =>
        .error ("API error (status " ++ toString resp.statusCode ++ "): "
          ++ apiErr.string)
  else if wantResult ∧ resp.body.length > 0 then
    if decodeOK resp.body then .ok ()
    else .error "failed to unmarshal response"
  else .ok ()

/-- `client.ListResponse[T]`: the cursor-paginated envelope. -/
structure ListResponse (α : Type) where
  data : List α
  hasMore : Bool
  firstID : Option String := none
  lastID : Option String := none
deriving DecidableEq, Repr

/-- `client.Workspace`: omitted optional JSON fields decode to `""`. -/
structure Workspace where
  id : String
  type : String
  name : String
  createdAt : String
  archivedAt : String := ""
  displayName : String := ""
deriving DecidableEq, Repr

/-- `client.Actor`. -/
structure Actor where
  id : String
  type : String
deriving DecidableEq, Repr

/-- `client.APIKey`: the `key` field is populated only in the create
response; omitted optional fields decode to `""`/`none`. -/
structure APIKey where
  id : String
  type : String
  name : String
  hint : String := ""
  createdAt : String
  createdBy : Option Actor := none
  status : String
  workspaceID : String := ""
  key : String := ""
deriving DecidableEq, Repr

/-- `client.UpdateAPIKeyRequest`: both fields carry `omitempty` JSON
tags, so a zero (empty-string) field is omitted from the body. -/
structure UpdateAPIKeyRequest where
  name : String := ""
  status : String := ""
deriving DecidableEq, Repr

/-- The JSON-object fields `encoding/json` emits for an
`UpdateAPIKeyRequest`: with `omitempty`, a field appears exactly when
its string is non-empty, in struct-declaration order. -/
def UpdateAPIKeyRequest.jsonFields (r : UpdateAPIKeyRequest) :
    List (String × String) :=
  (if r.name ≠ "" then [("name", r.name)] else [])
    ++ (if r.status ≠ "" then [("status", r.status)] else [])

/-- `client.WorkspaceMember` (the add/get/update response body): it
has `user_id`, `workspace_id`, `workspace_role`, `type` fields and no
`id` field.  Strings are modelled as character lists so that the
composite-id split can be reasoned about character by character. -/
structure WorkspaceMember where
  userID : List Char
  workspaceID : List Char
  workspaceRole : List Char
  type : List Char
deriving DecidableEq, Repr

/-- `client.Invite`. -/
structure Invite where
  id : String
  type : String
  email : String
  role : String
  status : String
  createdAt : String
  expiresAt : String
  inviterID : String := ""
  workspaceIDs : List String := []
deriving DecidableEq, Repr

/-- An HTTP request as built by the client operations: verb, path and
(for operations that send one) the JSON-object fields of the body. -/
structure HTTPRequest where
  method : String
  path : String
  bodyFields : Option (List (String × String)) := none
deriving DecidableEq, Repr

/-- Request built by `Client.ArchiveWorkspace`:
POST /v1/organizations/workspaces/{id}/archive with no body. -/
def archiveWorkspaceRequest (workspaceID : String) : HTTPRequest :=
  { method := "POST"
  , path := "/v1/organizations/workspaces/" ++ workspaceID ++ "/archive"
  , bodyFields := none }

/-- Request built by `Client.UpdateAPIKey`:
POST /v1/organizations/api_keys/{id} with the update body. -/
def updateAPIKeyRequest (apiKeyID : String) (req : UpdateAPIKeyRequest) :
    HTTPRequest :=
  { method := "POST"
  , path := "/v1/organizations/api_keys/" ++ apiKeyID
  , bodyFields := some req.jsonFields }

/-- Request issued by `Client.DeleteAPIKey`: it archives the key by
delegating to `UpdateAPIKey` with `Status: "archived"` (and a zero
`Name`). -/
def deleteAPIKeyRequest (apiKeyID : String) : HTTPRequest :=
  updateAPIKeyRequest apiKeyID { status := "archived" }

/-- The requests a `WorkspaceResource.Delete` invocation issues (one
`ArchiveWorkspace` call; the method body contains no other client
call). -/
def workspaceDeleteTrace (workspaceID : String) : List HTTPRequest :=
  [archiveWorkspaceRequest workspaceID]

/-- The requests an `APIKeyResource.Delete` invocation issues (one
`DeleteAPIKey` call). -/
def apiKeyDeleteTrace (apiKeyID : String) : List HTTPRequest :=
  [deleteAPIKeyRequest apiKeyID]

/-- Go `strings.Split` for a one-character separator, over character
lists: splits around every occurrence of `sep`; the result always has
one more element than the number of separators. -/
def goSplitChars (sep : Char) : List Char → List (List Char)
  | [] => [[]]
  | c :: rest =>
      match goSplitChars sep rest with
      | [] => [[c]]
      | h :: t => if c = sep then [] :: h :: t else (c :: h) :: t

/-- The composite id `WorkspaceMemberResource.Create` stores:
`fmt.Sprintf("%s/%s", member.WorkspaceID, member.UserID)` built from
the workspace id and user id echoed in the add-member response (the
response body has no id field). -/
def memberComposeID (workspaceID userID : List Char) : List Char :=
  workspaceID ++ '/' :: userID

/-- The state attributes `WorkspaceMemberResource.ImportState` writes
on success. -/
structure MemberImportState where
  id : List Char
  workspaceID : List Char
  userID : List Char
deriving DecidableEq, Repr

/-- `WorkspaceMemberResource.ImportState`: split the supplied id on
`/`; exactly two segments set id, workspace_id (first segment) and
user_id (second segment), any other segment count writes no state and
reports an Invalid Import ID error naming the expected format. -/
def memberImportState (reqID : List Char) :
    Except (String × String) MemberImportState :=
  match goSplitChars '/' reqID with
  | [a, b] => .ok { id := reqID, workspaceID := a, userID := b }
  | _ =>
      .error ("Invalid Import ID",
        "Expected import ID format: workspace_id/user_id, got: "
          ++ String.mk reqID)

/-- Outcome of one lifecycle call of an adapter: the diagnostics it
adds (summary, detail pairs) and the state it writes via
`resp.State.Set` — `none` when the adapter returns before writing, so
the previously stored state is kept. -/
structure StepOut (σ : Type) where
  diags : List (String × String)
  newState : Option σ
deriving DecidableEq, Repr

/-- `provider.WorkspaceResourceModel`. -/
structure WorkspaceResourceModel where
  id : TFString
  name : TFString
  displayName : TFString
  createdAt : TFString
  archivedAt : TFString
deriving DecidableEq, Repr

/-- `WorkspaceResource.Create` after the plan is loaded: the domain
call's outcome is `result`; on failure a Client Error diagnostic is
reported and no state is written, on success every model field is
populated from the response (archived_at nullable). -/
def workspaceCreateStep (plan : WorkspaceResourceModel)
    (result : Except String Workspace) : StepOut WorkspaceResourceModel :=
  match result with
  | .error e =>
      ⟨[("Client Error", "Unable to create workspace: " ++ e)], none⟩
  | .ok ws =>
      ⟨[], some { plan with
        id := .value ws.id
        name := .value ws.name
        displayName := .value ws.displayName
        createdAt := .value ws.createdAt
        archivedAt := if ws.archivedAt ≠ "" then .value ws.archivedAt
          else .null }⟩

/-- `WorkspaceResource.Read` after the prior state is loaded. -/
def workspaceReadStep (state : WorkspaceResourceModel)
    (result : Except String Workspace) : StepOut WorkspaceResourceModel :=
  match result with
  | .error e =>
      ⟨[("Client Error", "Unable to read workspace: " ++ e)], none⟩
  | .ok ws =>
      ⟨[], some { state with
        name := .value ws.name
        displayName := .value ws.displayName
        createdAt := .value ws.createdAt
        archivedAt := if ws.archivedAt ≠ "" then .value ws.archivedAt
          else .null }⟩

/-- `WorkspaceResource.Update` (sends only the name; created_at is
left as planned). -/
def workspaceUpdateStep (plan : WorkspaceResourceModel)
    (result : Except String Workspace) : StepOut WorkspaceResourceModel :=
  match result with
  | .error e =>
      ⟨[("Client Error", "Unable to update workspace: " ++ e)], none⟩
  | .ok ws =>
      ⟨[], some { plan with
        name := .value ws.name
        displayName := .value ws.displayName
        archivedAt := if ws.archivedAt ≠ "" then .value ws.archivedAt
          else .null }⟩

/-- `WorkspaceResource.Delete`: archives; writes no state itself. -/
def workspaceDeleteStep (result : Except String Workspace) :
    StepOut WorkspaceResourceModel :=
  match result with
  | .error e =>
      ⟨[("Client Error", "Unable to archive workspace: " ++ e)], none⟩
  | .ok _ => ⟨[], none⟩

/-- `provider.APIKeyResourceModel`. -/
structure APIKeyResourceModel where
  id : TFString
  name : TFString
  workspaceID : TFString
  status : TFString
  hint : TFString
  key : TFString
  createdAt : TFString
deriving DecidableEq, Repr

/-- The differential body `APIKeyResource.Update` builds (lines
194-204): the name is set only when the planned name differs from the
stored one, the status only when it differs and the planned status is
non-null. -/
def apiKeyBuildUpdateRequest (plan state : APIKeyResourceModel) :
    UpdateAPIKeyRequest :=
  let r : UpdateAPIKeyRequest := {}
  let r := if ¬ plan.name.equal state.name
    then { r with name := plan.name.valueString } else r
  if ¬ plan.status.equal state.status ∧ ¬ plan.status.isNull
    then { r with status := plan.status.valueString } else r

/-- `APIKeyResource.Create` after the plan is loaded: the key secret
is stored only when the create response carries a non-empty one. -/
def apiKeyCreateStep (plan : APIKeyResourceModel)
    (result : Except String APIKey) : StepOut APIKeyResourceModel :=
  match result with
  | .error e =>
      ⟨[("Client Error", "Unable to create API key: " ++ e)], none⟩
  | .ok k =>
      let d := { plan with
        id := .value k.id
        name := .value k.name
        status := .value k.status
        hint := .value k.hint
        createdAt := .value k.createdAt
        key := if k.key ≠ "" then .value k.key else .null }
      let d := if k.workspaceID ≠ ""
        then { d with workspaceID := .value k.workspaceID } else d
      ⟨[], some d⟩

/-- `APIKeyResource.Read`: refreshes name/status/hint/created_at and
(only when non-empty) workspace_id; the stored key is left untouched
and the response's key field is never consulted. -/
def apiKeyReadStep (state : APIKeyResourceModel)
    (result : Except String APIKey) : StepOut APIKeyResourceModel :=
  match result with
  | .error e =>
      ⟨[("Client Error", "Unable to read API key: " ++ e)], none⟩
  | .ok k =>
      let d := { state with
        name := .value k.name
        status := .value k.status
        hint := .value k.hint
        createdAt := .value k.createdAt }
      let d := if k.workspaceID ≠ ""
        then { d with workspaceID := .value k.workspaceID } else d
      ⟨[], some d⟩

/-- `APIKeyResource.Update` after plan and state are loaded: refreshes
name/status/hint from the response and re-copies the key from the
prior state, since the update response does not return it. -/
def apiKeyUpdateStep (plan state : APIKeyResourceModel)
    (result : Except String APIKey) : StepOut APIKeyResourceModel :=
  match result with
  | .error e =>
      ⟨[("Client Error", "Unable to update API key: " ++ e)], none⟩
  | .ok k =>
      ⟨[], some { plan with
        name := .value k.name
        status := .value k.status
        hint := .value k.hint
        key := state.key }⟩

/-- `APIKeyResource.Delete`: writes no state itself. -/
def apiKeyDeleteStep (result : Except String Unit) :
    StepOut APIKeyResourceModel :=
  match result with
  | .error e =>
      ⟨[("Client Error", "Unable to delete API key: " ++ e)], none⟩
  | .ok _ => ⟨[], none⟩

/-- `provider.WorkspaceMemberResourceModel` (strings as character
lists, matching `WorkspaceMember`). -/
structure WorkspaceMemberResourceModel where
  id : List Char
  workspaceID : List Char
  userID : List Char
  workspaceRole : List Char
deriving DecidableEq, Repr

/-- `WorkspaceMemberResource.Create` after the plan is loaded: the
stored id is composed from the workspace id and user id echoed in the
response (never from an id field — the response has none). -/
def memberCreateStep (plan : WorkspaceMemberResourceModel)
    (result : Except String WorkspaceMember) :
    StepOut WorkspaceMemberResourceModel :=
  match result with
  | .error e =>
      ⟨[("Client Error", "Unable to add workspace member: " ++ e)], none⟩
  | .ok m =>
      ⟨[], some { plan with
        id := memberComposeID m.workspaceID m.userID
        workspaceID := m.workspaceID
        userID := m.userID
        workspaceRole := m.workspaceRole }⟩

/-- `WorkspaceMemberResource.Read`: refreshes only the role. -/
def memberReadStep (state : WorkspaceMemberResourceModel)
    (result : Except String WorkspaceMember) :
    StepOut WorkspaceMemberResourceModel :=
  match result with
  | .error e =>
      ⟨[("Client Error", "Unable to read workspace member: " ++ e)], none⟩
  | .ok m => ⟨[], some { state with workspaceRole := m.workspaceRole }⟩

/-- `WorkspaceMemberResource.Update`: refreshes only the role. -/
def memberUpdateStep (plan : WorkspaceMemberResourceModel)
    (result : Except String WorkspaceMember) :
    StepOut WorkspaceMemberResourceModel :=
  match result with
  | .error e =>
      ⟨[("Client Error", "Unable to update workspace member: " ++ e)], none⟩
  | .ok m => ⟨[], some { plan with workspaceRole := m.workspaceRole }⟩

/-- `WorkspaceMemberResource.Delete`: writes no state itself. -/
def memberDeleteStep (result : Except String Unit) :
    StepOut WorkspaceMemberResourceModel :=
  match result with
  | .error e =>
      ⟨[("Client Error", "Unable to remove workspace member: " ++ e)], none⟩
  | .ok _ => ⟨[], none⟩

/-- `provider.InviteResourceModel`. -/
structure InviteResourceModel where
  id : TFString
  email : TFString
  role : TFString
  status : TFString
  createdAt : TFString
  expiresAt : TFString
  inviterID : TFString
deriving DecidableEq, Repr

/-- `InviteResource.Create` after the plan is loaded. -/
def inviteCreateStep (plan : InviteResourceModel)
    (result : Except String Invite) : StepOut InviteResourceModel :=
  match result with
  | .error e =>
      ⟨[("Client Error", "Unable to create invite: " ++ e)], none⟩
  | .ok inv =>
      ⟨[], some { plan with
        id := .value inv.id
        email := .value inv.email
        role := .value inv.role
        status := .value inv.status
        createdAt := .value inv.createdAt
        expiresAt := .value inv.expiresAt
        inviterID := if inv.inviterID ≠ "" then .value inv.inviterID
          else .null }⟩

/-- `InviteResource.Read` (inviter_id refreshed only when the
response's value is non-empty). -/
def inviteReadStep (state : InviteResourceModel)
    (result : Except String Invite) : StepOut InviteResourceModel :=
  match result with
  | .error e =>
      ⟨[("Client Error", "Unable to read invite: " ++ e)], none⟩
  | .ok inv =>
      let d := { state with
        email := .value inv.email
        role := .value inv.role
        status := .value inv.status
        expiresAt := .value inv.expiresAt }
      let d := if inv.inviterID ≠ ""
        then { d with inviterID := .value inv.inviterID } else d
      ⟨[], some d⟩

/-- Outcome of `InviteResource.Update`: diagnostics, state written,
and the client calls the method body issues. -/
structure InviteUpdateOutcome where
  diags : List (String × String)
  newState : Option InviteResourceModel
  apiCalls : List HTTPRequest
deriving DecidableEq, Repr

/-- `InviteResource.Update` (invite_resource.go lines 178-184): the
method body only adds an Update Not Supported error — it reads
neither plan nor state, issues no client call and writes no state. -/
def inviteUpdateStep (_plan _state : InviteResourceModel) :
    InviteUpdateOutcome :=
  ⟨[("Update Not Supported",
     "Invites cannot be updated. Delete and recreate the invite with the new settings.")],
   none, []⟩

/-- `InviteResource.Delete`: writes no state itself. -/
def inviteDeleteStep (result : Except String Unit) :
    StepOut InviteResourceModel :=
  match result with
  | .error e =>
      ⟨[("Client Error", "Unable to delete invite: " ++ e)], none⟩
  | .ok _ => ⟨[], none⟩

/-- `provider.AnthropicProviderModel`. -/
structure AnthropicProviderModel where
  adminKey : TFString
  baseURL : TFString
deriving DecidableEq, Repr

/-- `AnthropicProvider.Configure` (provider.go lines 51-89): the admin
key is the environment value, overridden by a non-null config value;
an empty resolved key is a fatal Missing Admin Key diagnostic and no
client is constructed; otherwise `NewClient` is called and, when the
base URL resolved the same way is non-empty, `WithBaseURL` applies
it.  `envAdminKey`/`envBaseURL` stand for `os.Getenv` of
ANTHROPIC_ADMIN_KEY / ANTHROPIC_BASE_URL (unset reads as ""). -/
def providerConfigure (envAdminKey envBaseURL : String)
    (config : AnthropicProviderModel) : Except (String × String) Client :=
  let adminKey := if ¬ config.adminKey.isNull
    then config.adminKey.valueString else envAdminKey
  if adminKey = "" then
    .error ("Missing Admin Key",
      "The admin_key must be set in the provider configuration or via the ANTHROPIC_ADMIN_KEY environment variable.")
  else
    let baseURL := if ¬ config.baseURL.isNull
      then config.baseURL.valueString else envBaseURL
    let c := NewClient adminKey
    .ok (if baseURL ≠ "" then c.withBaseURL baseURL else c)

/-- The parameters of one `Client.ListAPIKeys` call:
`ListAPIKeys(ctx, limit, beforeID, afterID, status, workspaceID)`. -/
structure APIKeysListCall where
  limit : Nat
  beforeID : String
  afterID : String
  status : String
  workspaceID : String
deriving DecidableEq, Repr

/-- The parameters of one `Client.ListWorkspaces` call:
`ListWorkspaces(ctx, limit, beforeID, afterID)`. -/
structure WorkspacesListCall where
  limit : Nat
  beforeID : String
  afterID : String
deriving DecidableEq, Repr

/-- The pagination-drain loop shared by the collection data sources
(api_keys_data_source.go lines 133-146 and the workspaces variant):
each iteration issues one List call carrying the current after-cursor
(recorded via `mkCall`), appends the page's data, breaks when the
page has no more data or a nil last-id, and otherwise continues with
the page's last-id as the next after-cursor.  The server's successive
pages are given as a list; the returned flag is true when the loop
terminated by its break (false only if the page list was exhausted
first). -/
def drainPages {α β : Type} (mkCall : String → β) :
    List (ListResponse α) → String → List α × List β × Bool
  | [], _ => ([], [], false)
  | page :: rest, afterID =>
      if page.hasMore = false ∨ page.lastID = none then
        (page.data, [mkCall afterID], true)
      else
        let out := drainPages mkCall rest (page.lastID.getD "")
        (page.data ++ out.1, mkCall afterID :: out.2.1, out.2.2)

/-- The List call `APIKeysDataSource.Read` issues for after-cursor
`afterID`: page size 100, empty before-cursor, and the data source's
status and workspace filters forwarded unchanged. -/
def apiKeysPageCall (status workspaceID afterID : String) : APIKeysListCall :=
  { limit := 100, beforeID := "", afterID := afterID
  , status := status, workspaceID := workspaceID }

/-- The List call `WorkspacesDataSource.Read` issues for after-cursor
`afterID`: page size 100 and empty before-cursor. -/
def workspacesPageCall (afterID : String) : WorkspacesListCall :=
  { limit := 100, beforeID := "", afterID := afterID }

/-- The pagination drain of `APIKeysDataSource.Read`: filters are the
config values (`""` when null), the initial after-cursor is empty. -/
def apiKeysCollect (cfgStatus cfgWorkspaceID : TFString)
    (pages : List (ListResponse APIKey)) :
    List APIKey × List APIKeysListCall × Bool :=
  let workspaceID := if ¬ cfgWorkspaceID.isNull
    then cfgWorkspaceID.valueString else ""
  let status := if ¬ cfgStatus.isNull then cfgStatus.valueString else ""
  drainPages (apiKeysPageCall status workspaceID) pages ""

/-- The pagination drain of `WorkspacesDataSource.Read`. -/
def workspacesCollect (pages : List (ListResponse Workspace)) :
    List Workspace × List WorkspacesListCall × Bool :=
  drainPages workspacesPageCall pages ""

/-- A split never yields an empty list of segments. -/
theorem goSplitChars_ne_nil (sep : Char) (l : List Char) :
    goSplitChars sep l ≠ [] := by
  cases l with
  | nil => simp [goSplitChars]
  | cons c rest =>
      cases h : goSplitChars sep rest with
      | nil => simp [goSplitChars, h]
      | cons a t =>
          simp only [goSplitChars, h]
          split <;> simp

/-- The split has one more segment than the number of separators. -/
theorem goSplitChars_length (sep : Char) (l : List Char) :
    (goSplitChars sep l).length = l.count sep + 1 := by
  induction l with
  | nil => simp [goSplitChars]
  | cons c rest ih =>
      cases h : goSplitChars sep rest with
      | nil => exact absurd h (goSplitChars_ne_nil sep rest)
      | cons a t =>
          rw [h] at ih
          by_cases hc : c = sep
          · subst hc
            simp only [goSplitChars, h, if_pos rfl, List.count_cons]
            simp only [List.length_cons] at ih ⊢
            simp [ih]
          · simp only [goSplitChars, h, if_neg hc, List.count_cons]
            simp only [List.length_cons] at ih ⊢
            have : (sep == c) = false := by
              simp [Ne.symm hc]
            simp [ih, this, hc]

/-- Splitting a separator-free list yields that single segment. -/
theorem goSplitChars_eq_single {sep : Char} {l : List Char}
    (h : sep ∉ l) : goSplitChars sep l = [l] := by
  induction l with
  | nil => rfl
  | cons c rest ih =>
      have h1 : sep ≠ c ∧ sep ∉ rest := by
        simpa [List.mem_cons, not_or] using h
      simp [goSplitChars, ih h1.2, Ne.symm h1.1]

/-- Splitting around the first separator peels off the separator-free
part before it. -/
theorem goSplitChars_append {sep : Char} {l₁ : List Char}
    (l₂ : List Char) (h : sep ∉ l₁) :
    goSplitChars sep (l₁ ++ sep :: l₂) = l₁ :: goSplitChars sep l₂ := by
  induction l₁ with
  | nil =>
      cases hr : goSplitChars sep l₂ with
      | nil => exact absurd hr (goSplitChars_ne_nil sep l₂)
      | cons a t => simp [goSplitChars, hr]
  | cons c rest ih =>
      have h1 : sep ≠ c ∧ sep ∉ rest := by
        simpa [List.mem_cons, not_or] using h
      simp [goSplitChars, ih h1.2, Ne.symm h1.1]

/-- C1: a successful WorkspaceMember Create stores the composite id
"workspace_id/user_id" built from the ids echoed in the add-member
response; ImportState of any id with exactly one slash succeeds,
setting workspace_id and user_id to the first and second segment, a
created id round-trips through import, and any id whose slash count
differs from one writes no state and fails with the Invalid Import ID
diagnostic naming the expected workspace_id/user_id format. -/
theorem workspaceMember_composite_id_and_import :
    (∀ (plan : WorkspaceMemberResourceModel) (m : WorkspaceMember),
      (memberCreateStep plan (.ok m)).newState =
        some { id := memberComposeID m.workspaceID m.userID
             , workspaceID := m.workspaceID
             , userID := m.userID
             , workspaceRole := m.workspaceRole }) ∧
    (∀ s : List Char, s.count '/' = 1 →
      ∃ a b, goSplitChars '/' s = [a, b] ∧
        memberImportState s = .ok ⟨s, a, b⟩) ∧
    (∀ ws uid : List Char, '/' ∉ ws → '/' ∉ uid →
      memberImportState (memberComposeID ws uid) =
        .ok ⟨memberComposeID ws uid, ws, uid⟩) ∧
    (∀ s : List Char, s.count '/' ≠ 1 →
      memberImportState s =
        .error ("Invalid Import ID",
          "Expected import ID format: workspace_id/user_id, got: "
            ++ String.mk s)) := by
  refine ⟨fun plan m => rfl, ?_, ?_, ?_⟩
  · intro s hcount
    have hlen : (goSplitChars '/' s).length = 2 := by
      rw [goSplitChars_length, hcount]
    obtain ⟨a, b, hab⟩ := List.length_eq_two.mp hlen
    exact ⟨a, b, hab, by simp [memberImportState, hab]⟩
  · intro ws uid hws huid
    simp [memberImportState, memberComposeID,
      goSplitChars_append _ hws, goSplitChars_eq_single huid]
  · intro s hcount
    have hlen : (goSplitChars '/' s).length ≠ 2 := by
      rw [goSplitChars_length]; omega
    rcases hsp : goSplitChars '/' s with _ | ⟨a, _ | ⟨b, _ | ⟨c, t⟩⟩⟩
    · simp [memberImportState, hsp]
    · simp [memberImportState, hsp]
    · exact absurd (by rw [hsp]; rfl) hlen
    · simp [memberImportState, hsp]

/-- Witness for C1 at the spec's concrete inputs. -/
theorem workspaceMember_composite_id_and_import_witness :
    (("wrkspc_abc123/user_xyz789".toList.count '/' = 1) ∧
      ∃ a b, goSplitChars '/' "wrkspc_abc123/user_xyz789".toList = [a, b] ∧
        memberImportState "wrkspc_abc123/user_xyz789".toList =
          .ok ⟨"wrkspc_abc123/user_xyz789".toList, a, b⟩) ∧
    ("bad-format-no-slash-or-two/slashes/here".toList.count '/' ≠ 1 ∧
      memberImportState "bad-format-no-slash-or-two/slashes/here".toList =
        .error ("Invalid Import ID",
          "Expected import ID format: workspace_id/user_id, got: "
            ++ String.mk "bad-format-no-slash-or-two/slashes/here".toList)) :=
  ⟨⟨by decide,
    workspaceMember_composite_id_and_import.2.1 _ (by decide)⟩,
   ⟨by decide,
    workspaceMember_composite_id_and_import.2.2.2 _ (by decide)⟩⟩

/-- C2 counterexample: status 304 is outside the 2xx range, yet
doRequest takes the success path and returns no failure — the code's
error branch fires only for status ≥ 400, so the claim stated over
all non-2xx statuses is false. -/
theorem doRequest_non2xx_counterexample :
    (¬ (200 ≤ 304 ∧ 304 < 300)) ∧
    doRequestRespond (fun _ => none) (fun _ => true) true
      { statusCode := 304, body := "" } = .ok () := by
  exact ⟨by omega, by rfl⟩

/-- C2 (amended): for every HTTP response whose status is at least
400, doRequest returns a failure; the failure message is composed
from "type: message", taking type and message from the nested
error object when its message is present and from the top-level
fields otherwise; when the body does not decode, the failure embeds
the raw status code and raw body text. -/
theorem doRequest_error_decoding (decodeErr : String → Option APIError)
    (decodeOK : String → Bool) (wantResult : Bool)
    (resp : GoHTTPResponse) (h : 400 ≤ resp.statusCode) :
    (∃ msg, doRequestRespond decodeErr decodeOK wantResult resp =
      .error msg) ∧
    (∀ e, decodeErr resp.body = some e →
      doRequestRespond decodeErr decodeOK wantResult resp =
        .error ("API error (status " ++ toString resp.statusCode ++ "): "
          ++ e.string)) ∧
    (decodeErr resp.body = none →
      doRequestRespond decodeErr decodeOK wantResult resp =
        .error ("API error (status " ++ toString resp.statusCode ++ "): "
          ++ resp.body)) ∧
    (∀ e : APIError, e.error.message ≠ "" →
      e.string = e.error.type ++ ": " ++ e.error.message) ∧
    (∀ e : APIError, e.error.message = "" →
      e.string = e.type ++ ": " ++ e.message) := by
  refine ⟨?_, ?_, ?_, ?_, ?_⟩
  · cases hdec : decodeErr resp.body with
    | none =>
        exact ⟨"API error (status " ++ toString resp.statusCode ++ "): "
          ++ resp.body, by simp [doRequestRespond, if_pos h, hdec]⟩
    | some e =>
        exact ⟨"API error (status " ++ toString resp.statusCode ++ "): "
          ++ e.string, by simp [doRequestRespond, if_pos h, hdec]⟩
  · intro e hdec
    simp [doRequestRespond, if_pos h, hdec]
  · intro hdec
    simp [doRequestRespond, if_pos h, hdec]
  · intro e he
    simp [APIError.string, he]
  · intro e he
    simp [APIError.string, he]

/-- Witness for the amended C2: both error-body shapes at status 404,
plus the raw fallback. -/
theorem doRequest_error_decoding_witness :
    doRequestRespond
      (fun _ => some ⟨"error", "x", ⟨"t", "m"⟩⟩) (fun _ => true) true
      { statusCode := 404, body := "nested" } =
        .error "API error (status 404): t: m" ∧
    doRequestRespond
      (fun _ => some ⟨"error", "x", ⟨"", ""⟩⟩) (fun _ => true) true
      { statusCode := 404, body := "flat" } =
        .error "API error (status 404): error: x" ∧
    doRequestRespond (fun _ => none) (fun _ => true) true
      { statusCode := 500, body := "not json" } =
        .error "API error (status 500): not json" := by
  refine ⟨?_, ?_, ?_⟩
  · have h := (doRequest_error_decoding
      (fun _ => some ⟨"error", "x", ⟨"t", "m"⟩⟩) (fun _ => true) true
      { statusCode := 404, body := "nested" } (by decide)).2.1
      ⟨"error", "x", ⟨"t", "m"⟩⟩ rfl
    rw [h]; rfl
  · have h := (doRequest_error_decoding
      (fun _ => some ⟨"error", "x", ⟨"", ""⟩⟩) (fun _ => true) true
      { statusCode := 404, body := "flat" } (by decide)).2.1
      ⟨"error", "x", ⟨"", ""⟩⟩ rfl
    rw [h]; rfl
  · have h := (doRequest_error_decoding
      (fun _ => none) (fun _ => true) true
      { statusCode := 500, body := "not json" } (by decide)).2.2.1 rfl
    rw [h]; rfl

/-- Invariant of the drain loop: while every earlier page signals
more data and carries a last-id, the loop consumes exactly the pages
up to and including the first stopping page, accumulates their data
in order, and issues one call per consumed page whose after-cursor is
the previous page's last-id (the first call using the initial
cursor).  Pages after the stopping page are never requested. -/
theorem drainPages_spec {α β : Type} (mkCall : String → β)
    (pre : List (ListResponse α)) (stop : ListResponse α)
    (rest : List (ListResponse α)) (a0 : String)
    (hpre : ∀ p ∈ pre, p.hasMore = true ∧ p.lastID ≠ none)
    (hstop : stop.hasMore = false ∨ stop.lastID = none) :
    drainPages mkCall (pre ++ stop :: rest) a0 =
      (((pre ++ [stop]).map ListResponse.data).flatten,
       (a0 :: pre.map (fun p => p.lastID.getD "")).map mkCall,
       true) := by
  induction pre generalizing a0 with
  | nil => simp [drainPages, hstop]
  | cons p pre ih =>
      have hp := hpre p (List.mem_cons_self p pre)
      have hpre' : ∀ q ∈ pre, q.hasMore = true ∧ q.lastID ≠ none :=
        fun q hq => hpre q (List.mem_cons_of_mem p hq)
      have hcond : ¬ (p.hasMore = false ∨ p.lastID = none) := by
        simp [hp.1, hp.2]
      simp only [List.cons_append, drainPages, if_neg hcond, List.append_eq]
      rw [ih _ hpre']
      simp

/-- C3: the collection data sources (API Keys, Workspaces) drain the
remote List with page size 100 and empty before-cursor, carrying each
page's last-id forward as the next after-cursor, continue exactly
while a page has more data and a present last-id, return all pages'
items concatenated in order, and the API-keys variant forwards the
status and workspace filters unchanged into every page request. -/
theorem collection_pagination_drain :
    (∀ (cfgStatus cfgWorkspaceID : TFString)
       (pre : List (ListResponse APIKey)) (stop : ListResponse APIKey)
       (rest : List (ListResponse APIKey)),
      (∀ p ∈ pre, p.hasMore = true ∧ p.lastID ≠ none) →
      (stop.hasMore = false ∨ stop.lastID = none) →
      apiKeysCollect cfgStatus cfgWorkspaceID (pre ++ stop :: rest) =
        (((pre ++ [stop]).map ListResponse.data).flatten,
         ("" :: pre.map (fun p => p.lastID.getD "")).map
           (apiKeysPageCall
             (if ¬ cfgStatus.isNull then cfgStatus.valueString else "")
             (if ¬ cfgWorkspaceID.isNull then cfgWorkspaceID.valueString
               else "")),
         true)) ∧
    (∀ (pre : List (ListResponse Workspace)) (stop : ListResponse Workspace)
       (rest : List (ListResponse Workspace)),
      (∀ p ∈ pre, p.hasMore = true ∧ p.lastID ≠ none) →
      (stop.hasMore = false ∨ stop.lastID = none) →
      workspacesCollect (pre ++ stop :: rest) =
        (((pre ++ [stop]).map ListResponse.data).flatten,
         ("" :: pre.map (fun p => p.lastID.getD "")).map workspacesPageCall,
         true)) := by
  constructor
  · intro cfgStatus cfgWorkspaceID pre stop rest hpre hstop
    exact drainPages_spec _ pre stop rest "" hpre hstop
  · intro pre stop rest hpre hstop
    exact drainPages_spec _ pre stop rest "" hpre hstop

/-- A distinguishable stub API key for the pagination witness. -/
def stubKey (n : Nat) : APIKey :=
  { id := toString n, type := "api_key", name := "k"
  , createdAt := "t", status := "active" }

/-- Stub page 1 of the spec's pagination example: 100 items, more
data, last id present. -/
def apiKeysStubPage1 : ListResponse APIKey :=
  { data := (List.range 100).map stubKey, hasMore := true
  , lastID := some "99" }

/-- Stub page 2: 100 further items, more data, last id present. -/
def apiKeysStubPage2 : ListResponse APIKey :=
  { data := (List.range' 100 100).map stubKey, hasMore := true
  , lastID := some "199" }

/-- Stub page 3: 40 final items, no more data. -/
def apiKeysStubPage3 : ListResponse APIKey :=
  { data := (List.range' 200 40).map stubKey, hasMore := false
  , lastID := none }

/-- Witness for C3: on the 100/100/40 stub with has_more
true/true/false, the API-keys data source issues exactly 3 calls
(limit 100, filters forwarded, cursors chained) and returns exactly
240 items in original order. -/
theorem collection_pagination_drain_witness :
    apiKeysCollect (.value "active") (.value "wrkspc_1")
      [apiKeysStubPage1, apiKeysStubPage2, apiKeysStubPage3] =
      (apiKeysStubPage1.data ++ (apiKeysStubPage2.data
         ++ (apiKeysStubPage3.data ++ [])),
       [apiKeysPageCall "active" "wrkspc_1" "",
        apiKeysPageCall "active" "wrkspc_1" "99",
        apiKeysPageCall "active" "wrkspc_1" "199"],
       true) ∧
    (apiKeysStubPage1.data ++ (apiKeysStubPage2.data
       ++ (apiKeysStubPage3.data ++ []))).length = 240 := by
  constructor
  · exact collection_pagination_drain.1 (.value "active") (.value "wrkspc_1")
      [apiKeysStubPage1, apiKeysStubPage2] apiKeysStubPage3 []
      (by decide) (by decide)
  · simp [apiKeysStubPage1, apiKeysStubPage2, apiKeysStubPage3]

/-- C4 counterexample: a planned name (resp. status) that differs
from state but is the empty string is dropped from the body by
`omitempty`, so "the body contains the field iff it changed (and, for
status, is non-null)" fails in the only-if-absent direction. -/
theorem apiKey_update_differential_counterexample :
    (¬ TFString.equal (.value "") (.value "x") = true) ∧
    (apiKeyBuildUpdateRequest
      { id := .value "k1", name := .value "", workspaceID := .null
      , status := .value "active", hint := .null, key := .null
      , createdAt := .null }
      { id := .value "k1", name := .value "x", workspaceID := .null
      , status := .value "active", hint := .null, key := .null
      , createdAt := .null }).jsonFields = [] ∧
    (¬ TFString.equal (.value "") (.value "active") = true) ∧
    (¬ (TFString.value "").isNull = true) ∧
    (apiKeyBuildUpdateRequest
      { id := .value "k1", name := .value "x", workspaceID := .null
      , status := .value "", hint := .null, key := .null
      , createdAt := .null }
      { id := .value "k1", name := .value "x", workspaceID := .null
      , status := .value "active", hint := .null, key := .null
      , createdAt := .null }).jsonFields = [] := by
  decide

/-- C4 (amended): the update body contains the name field iff the
planned name differs from the stored name and serializes to a
non-empty string, and the status field iff the planned status differs
from the stored status, is non-null, and serializes to a non-empty
string (`omitempty` drops empty strings); in particular unchanged
name and status send a body with both fields omitted, and changing
only the status to a non-empty value sends only status. -/
theorem apiKey_update_differential (plan state : APIKeyResourceModel) :
    ("name" ∈ ((apiKeyBuildUpdateRequest plan state).jsonFields.map
        Prod.fst) ↔
      ¬ plan.name.equal state.name = true ∧ plan.name.valueString ≠ "") ∧
    ("status" ∈ ((apiKeyBuildUpdateRequest plan state).jsonFields.map
        Prod.fst) ↔
      ¬ plan.status.equal state.status = true ∧
        ¬ plan.status.isNull = true ∧ plan.status.valueString ≠ "") ∧
    (plan.name.equal state.name = true →
      plan.status.equal state.status = true →
      (apiKeyBuildUpdateRequest plan state).jsonFields = []) ∧
    (plan.name.equal state.name = true →
      ¬ plan.status.equal state.status = true →
      ¬ plan.status.isNull = true → plan.status.valueString ≠ "" →
      (apiKeyBuildUpdateRequest plan state).jsonFields =
        [("status", plan.status.valueString)]) := by
  by_cases h1 : plan.name.equal state.name = true <;>
    by_cases h2 : plan.status.equal state.status = true <;>
      by_cases h3 : plan.status.isNull = true <;>
        simp [apiKeyBuildUpdateRequest, UpdateAPIKeyRequest.jsonFields,
          h1, h2, h3]

/-- Witness for the amended C4: changing only the status to
"inactive" sends a body holding exactly the status field. -/
theorem apiKey_update_differential_witness :
    (TFString.equal (.value "n") (.value "n") = true) ∧
    (apiKeyBuildUpdateRequest
      { id := .value "k2", name := .value "n", workspaceID := .null
      , status := .value "inactive", hint := .null, key := .null
      , createdAt := .null }
      { id := .value "k2", name := .value "n", workspaceID := .null
      , status := .value "active", hint := .null, key := .null
      , createdAt := .null }).jsonFields = [("status", "inactive")] :=
  ⟨by decide,
   (apiKey_update_differential
      { id := .value "k2", name := .value "n", workspaceID := .null
      , status := .value "inactive", hint := .null, key := .null
      , createdAt := .null }
      { id := .value "k2", name := .value "n", workspaceID := .null
      , status := .value "active", hint := .null, key := .null
      , createdAt := .null }).2.2.2
    (by decide) (by decide) (by decide) (by decide)⟩

/-- C5: deleting a Workspace issues exactly one call, to the archive
endpoint (POST .../workspaces/{id}/archive), and no request with the
DELETE verb; deleting an APIKey issues exactly one update call (POST
.../api_keys/{id}) whose body sets status to "archived", and no
DELETE request — for every delete invocation on these two kinds. -/
theorem delete_is_archive_or_update (workspaceID apiKeyID : String) :
    workspaceDeleteTrace workspaceID =
      [{ method := "POST"
       , path := "/v1/organizations/workspaces/" ++ workspaceID
           ++ "/archive"
       , bodyFields := none }] ∧
    apiKeyDeleteTrace apiKeyID =
      [{ method := "POST"
       , path := "/v1/organizations/api_keys/" ++ apiKeyID
       , bodyFields := some [("status", "archived")] }] ∧
    (workspaceDeleteTrace workspaceID).countP
      (fun r => r.method == "DELETE") = 0 ∧
    (apiKeyDeleteTrace apiKeyID).countP
      (fun r => r.method == "DELETE") = 0 := by
  refine ⟨rfl, rfl, ?_, ?_⟩ <;> rfl

/-- Witness for C5 at a concrete workspace and api-key id. -/
theorem delete_is_archive_or_update_witness :
    workspaceDeleteTrace "wrkspc_1" =
      [{ method := "POST"
       , path := "/v1/organizations/workspaces/wrkspc_1/archive"
       , bodyFields := none }] ∧
    apiKeyDeleteTrace "apikey_1" =
      [{ method := "POST"
       , path := "/v1/organizations/api_keys/apikey_1"
       , bodyFields := some [("status", "archived")] }] :=
  ⟨(delete_is_archive_or_update "wrkspc_1" "apikey_1").1,
   (delete_is_archive_or_update "wrkspc_1" "apikey_1").2.1⟩

/-- C6: for every Invite and every update payload, Update fails with
the descriptive Update Not Supported diagnostic, issues no remote API
call, and writes no state. -/
theorem invite_update_rejected (plan state : InviteResourceModel) :
    inviteUpdateStep plan state =
      { diags := [("Update Not Supported",
          "Invites cannot be updated. Delete and recreate the invite with the new settings.")]
      , newState := none
      , apiCalls := [] } := rfl

/-- C7: a successful APIKey Read leaves the stored key exactly as it
was (the remote key field is ignored) and a successful Update
re-copies the prior state's key, so a non-empty stored key is never
overwritten with empty or null. -/
theorem apiKey_secret_never_overwritten
    (plan state : APIKeyResourceModel) (k : APIKey) :
    ((apiKeyReadStep state (.ok k)).newState.map (fun d => d.key) =
      some state.key) ∧
    ((apiKeyUpdateStep plan state (.ok k)).newState.map (fun d => d.key) =
      some state.key) ∧
    (∀ s, state.key = .value s → s ≠ "" →
      (apiKeyReadStep state (.ok k)).newState.map (fun d => d.key) =
        some (.value s) ∧
      (apiKeyUpdateStep plan state (.ok k)).newState.map (fun d => d.key) =
        some (.value s)) := by
  have h1 : (apiKeyReadStep state (.ok k)).newState.map (fun d => d.key) =
      some state.key := by
    simp only [apiKeyReadStep]
    split <;> rfl
  have h2 : (apiKeyUpdateStep plan state (.ok k)).newState.map
      (fun d => d.key) = some state.key := rfl
  exact ⟨h1, h2, fun s hs _ => ⟨by rw [h1, hs], by rw [h2, hs]⟩⟩

/-- Witness for C7: a state holding key "sk-ant-full" keeps it across
a successful read whose response carries no key. -/
theorem apiKey_secret_never_overwritten_witness :
    (TFString.value "sk-ant-full" = TFString.value "sk-ant-full") ∧
    ((apiKeyReadStep
        { id := .value "k3", name := .value "n", workspaceID := .null
        , status := .value "active", hint := .value "full"
        , key := .value "sk-ant-full", createdAt := .value "t" }
        (.ok { id := "k3", type := "api_key", name := "n"
             , hint := "full", createdAt := "t", status := "active" })
      ).newState.map (fun d => d.key) = some (.value "sk-ant-full")) ∧
    ((apiKeyUpdateStep
        { id := .value "k3", name := .value "n2", workspaceID := .null
        , status := .value "active", hint := .value "full"
        , key := .unknown, createdAt := .value "t" }
        { id := .value "k3", name := .value "n", workspaceID := .null
        , status := .value "active", hint := .value "full"
        , key := .value "sk-ant-full", createdAt := .value "t" }
        (.ok { id := "k3", type := "api_key", name := "n2"
             , hint := "full", createdAt := "t", status := "active" })
      ).newState.map (fun d => d.key) = some (.value "sk-ant-full")) := by
  have h := apiKey_secret_never_overwritten
    { id := .value "k3", name := .value "n2", workspaceID := .null
    , status := .value "active", hint := .value "full"
    , key := .unknown, createdAt := .value "t" }
    { id := .value "k3", name := .value "n", workspaceID := .null
    , status := .value "active", hint := .value "full"
    , key := .value "sk-ant-full", createdAt := .value "t" }
  refine ⟨rfl, ?_, ?_⟩
  · exact ((h { id := "k3", type := "api_key", name := "n",
                hint := "full", createdAt := "t",
                status := "active" }).2.2
      "sk-ant-full" rfl (by decide)).1
  · exact ((h { id := "k3", type := "api_key", name := "n2",
                hint := "full", createdAt := "t",
                status := "active" }).2.2
      "sk-ant-full" rfl (by decide)).2

/-- C8: for every resource kind and lifecycle operation, a failing
domain call makes the adapter report exactly one Client Error
diagnostic and write no state (the prior state is kept); a failing
read likewise reports without touching state. -/
theorem failure_preserves_state (e : String)
    (wplan wstate : WorkspaceResourceModel)
    (kplan kstate : APIKeyResourceModel)
    (mplan mstate : WorkspaceMemberResourceModel)
    (iplan istate : InviteResourceModel) :
    workspaceCreateStep wplan (.error e) =
      ⟨[("Client Error", "Unable to create workspace: " ++ e)], none⟩ ∧
    workspaceReadStep wstate (.error e) =
      ⟨[("Client Error", "Unable to read workspace: " ++ e)], none⟩ ∧
    workspaceUpdateStep wplan (.error e) =
      ⟨[("Client Error", "Unable to update workspace: " ++ e)], none⟩ ∧
    workspaceDeleteStep (.error e) =
      ⟨[("Client Error", "Unable to archive workspace: " ++ e)], none⟩ ∧
    apiKeyCreateStep kplan (.error e) =
      ⟨[("Client Error", "Unable to create API key: " ++ e)], none⟩ ∧
    apiKeyReadStep kstate (.error e) =
      ⟨[("Client Error", "Unable to read API key: " ++ e)], none⟩ ∧
    apiKeyUpdateStep kplan kstate (.error e) =
      ⟨[("Client Error", "Unable to update API key: " ++ e)], none⟩ ∧
    apiKeyDeleteStep (.error e) =
      ⟨[("Client Error", "Unable to delete API key: " ++ e)], none⟩ ∧
    memberCreateStep mplan (.error e) =
      ⟨[("Client Error", "Unable to add workspace member: " ++ e)], none⟩ ∧
    memberReadStep mstate (.error e) =
      ⟨[("Client Error", "Unable to read workspace member: " ++ e)], none⟩ ∧
    memberUpdateStep mplan (.error e) =
      ⟨[("Client Error", "Unable to update workspace member: " ++ e)],
        none⟩ ∧
    memberDeleteStep (.error e) =
      ⟨[("Client Error", "Unable to remove workspace member: " ++ e)],
        none⟩ ∧
    inviteCreateStep iplan (.error e) =
      ⟨[("Client Error", "Unable to create invite: " ++ e)], none⟩ ∧
    inviteReadStep istate (.error e) =
      ⟨[("Client Error", "Unable to read invite: " ++ e)], none⟩ ∧
    inviteDeleteStep (.error e) =
      ⟨[("Client Error", "Unable to delete invite: " ++ e)], none⟩ := by
  exact ⟨rfl, rfl, rfl, rfl, rfl, rfl, rfl, rfl, rfl, rfl, rfl, rfl,
    rfl, rfl, rfl⟩

/-- C9: the credential is the explicit admin_key config value when
non-null, else the environment value; an empty resolved credential is
a fatal Missing Admin Key failure and no client is constructed;
otherwise the client carries that credential, the default API version
and timeout, and a base URL resolved config-over-environment,
defaulting to https://api.anthropic.com when both are unset. -/
theorem provider_configure_credential (envAdminKey envBaseURL : String)
    (config : AnthropicProviderModel) :
    ((if ¬ config.adminKey.isNull then config.adminKey.valueString
        else envAdminKey) = "" →
      providerConfigure envAdminKey envBaseURL config =
        .error ("Missing Admin Key",
          "The admin_key must be set in the provider configuration or via the ANTHROPIC_ADMIN_KEY environment variable.")) ∧
    ((if ¬ config.adminKey.isNull then config.adminKey.valueString
        else envAdminKey) ≠ "" →
      ∃ c, providerConfigure envAdminKey envBaseURL config = .ok c ∧
        c.adminKey = (if ¬ config.adminKey.isNull
          then config.adminKey.valueString else envAdminKey) ∧
        c.apiVersion = DefaultAPIVersion ∧
        c.timeoutSeconds = 30 ∧
        ((if ¬ config.baseURL.isNull then config.baseURL.valueString
            else envBaseURL) = "" → c.baseURL = DefaultBaseURL) ∧
        ((if ¬ config.baseURL.isNull then config.baseURL.valueString
            else envBaseURL) ≠ "" →
          c.baseURL = (if ¬ config.baseURL.isNull
            then config.baseURL.valueString else envBaseURL))) := by
  constructor
  · intro hk
    simp only [providerConfigure, hk]
    rfl
  · intro hk
    by_cases hb : (if ¬ config.baseURL.isNull
        then config.baseURL.valueString else envBaseURL) = ""
    · refine ⟨NewClient (if ¬ config.adminKey.isNull
        then config.adminKey.valueString else envAdminKey), ?_, rfl,
        rfl, rfl, fun _ => rfl, fun hb2 => absurd hb hb2⟩
      simp only [providerConfigure, if_neg hk, hb]
      simp
    · refine ⟨(NewClient (if ¬ config.adminKey.isNull
        then config.adminKey.valueString
        else envAdminKey)).withBaseURL
          (if ¬ config.baseURL.isNull then config.baseURL.valueString
            else envBaseURL), ?_, rfl, rfl, rfl,
        fun hb2 => absurd hb2 hb, fun _ => rfl⟩
      simp only [providerConfigure, if_neg hk, if_pos hb]

/-- Witness for C9: explicit config credential wins and the base URL
defaults; empty credential from both sources is fatal. -/
theorem provider_configure_credential_witness :
    (∃ c, providerConfigure "" ""
        { adminKey := .value "sk-admin", baseURL := .null } = .ok c ∧
      c.adminKey = "sk-admin" ∧ c.baseURL = DefaultBaseURL) ∧
    providerConfigure "" "" { adminKey := .null, baseURL := .null } =
      .error ("Missing Admin Key",
        "The admin_key must be set in the provider configuration or via the ANTHROPIC_ADMIN_KEY environment variable.") := by
  constructor
  · obtain ⟨c, hc, hk, _, _, hb, _⟩ :=
      (provider_configure_credential "" ""
        { adminKey := .value "sk-admin", baseURL := .null }).2 (by decide)
    exact ⟨c, hc, by simpa using hk, hb (by decide)⟩
  · exact (provider_configure_credential "" ""
      { adminKey := .null, baseURL := .null }).1 (by decide)

/-- C10: for every api-key id, the DeleteAPIKey request body holds
exactly the status field with value "archived" — the name field is
omitted by its omitempty encoding since the request struct's name is
the empty string — and the request never carries the key's name. -/
theorem deleteAPIKey_body_only_status (apiKeyID : String) :
    (deleteAPIKeyRequest apiKeyID).bodyFields =
      some [("status", "archived")] ∧
    "name" ∉ (((deleteAPIKeyRequest apiKeyID).bodyFields.getD []).map
      Prod.fst) ∧
    (deleteAPIKeyRequest apiKeyID).method = "POST" ∧
    (deleteAPIKeyRequest apiKeyID).path =
      "/v1/organizations/api_keys/" ++ apiKeyID := by
  refine ⟨rfl, ?_, rfl, rfl⟩
  simp [deleteAPIKeyRequest, updateAPIKeyRequest,
    UpdateAPIKeyRequest.jsonFields]

end AnthropicProvider
